import Mathlib

/-!
Verification of the cached remote-dataset loader of `compare-regions-jp`
(`src/compare_regions_jp/data/base.py` together with the settings module
`src/compare_regions_jp/config/settings.py`).

The embedding is a shallow one:

* Python strings are `String`; where lexicographic comparison is needed
  (Python's `sorted`), strings are compared through their character lists
  with a structurally recursive comparison so that everything evaluates.
* `time.time()` values and file modification times are rationals (`ℚ`);
  wall-clock elapsed time is not modelled (no claim depends on it).
* The cache directory is an explicit value: a list of named files, each
  holding either well-formed serialized data (`CacheFile.good`) or content
  the concrete loader's deserializer rejects (`CacheFile.corrupt`).
* The three abstract methods a concrete loader supplies
  (`_load_data_from_source`, `_save_to_cache`, `_load_from_cache`) are
  modelled by a `LoaderOps` record describing the outcome of each call;
  `_load_from_cache` succeeds exactly on `CacheFile.good` content.
* `hashlib.sha256(...).hexdigest()` is modelled by an abstract function
  `hashHex : String → List Char` (the hex digest as a character sequence);
  no claim depends on more than it being a function of the key string.
* Exceptions become explicit `Except` values; `DataLoadError`'s payload
  (message, source, original exception) is carried in `PyExc`.
-/

/-- Strict lexicographic comparison of character lists, the order Python
uses on strings; written as structural recursion so it evaluates in the
kernel. -/
def charsLt : List Char → List Char → Bool
  | [], [] => false
  | [], _ :: _ => true
  | _ :: _, [] => false
  | a :: s, b :: t => if a < b then true else if b < a then false else charsLt s t

/-- Non-strict counterpart of `charsLt` for a total order. -/
def charsLe (s t : List Char) : Bool := ! charsLt t s

theorem charsLt_asymm : ∀ s t : List Char, charsLt s t = true → charsLt t s = false := by
  intro s
  induction s with
  | nil => intro t h; cases t <;> simp_all [charsLt]
  | cons a s ih =>
    intro t h
    cases t with
    | nil => simp [charsLt] at h
    | cons b t =>
      simp only [charsLt] at h ⊢
      rcases lt_trichotomy a b with hab | hab | hab
      · simp [hab, lt_asymm hab]
      · subst hab
        simp at h ⊢
        exact ih t h
      · simp [hab, lt_asymm hab] at h

theorem charsLt_trichotomy : ∀ s t : List Char,
    charsLt s t = true ∨ charsLt t s = true ∨ s = t := by
  intro s
  induction s with
  | nil => intro t; cases t <;> simp [charsLt]
  | cons a s ih =>
    intro t
    cases t with
    | nil => simp [charsLt]
    | cons b t =>
      rcases lt_trichotomy a b with hab | hab | hab
      · left; simp [charsLt, hab]
      · subst hab
        rcases ih t with h | h | h
        · left; simp [charsLt, h]
        · right; left; simp [charsLt, h]
        · right; right; simp [h]
      · right; left; simp [charsLt, hab]

theorem charsLt_trans : ∀ s t u : List Char,
    charsLt s t = true → charsLt t u = true → charsLt s u = true := by
  intro s
  induction s with
  | nil =>
    intro t u hst htu
    cases t with
    | nil => simp [charsLt] at hst
    | cons b t => cases u with
      | nil => simp [charsLt] at htu
      | cons c u => simp [charsLt]
  | cons a s ih =>
    intro t u hst htu
    cases t with
    | nil => simp [charsLt] at hst
    | cons b t =>
      cases u with
      | nil => simp [charsLt] at htu
      | cons c u =>
        simp only [charsLt] at hst htu ⊢
        rcases lt_trichotomy a b with hab | hab | hab
        · rcases lt_trichotomy b c with hbc | hbc | hbc
          · have hac : a < c := lt_trans hab hbc
            simp [hac]
          · subst hbc; simp [hab]
          · simp [hbc, lt_asymm hbc] at htu
        · subst hab
          rcases lt_trichotomy a c with hac | hac | hac
          · simp [hac]
          · subst hac
            simp at hst htu ⊢
            exact ih t u hst htu
          · simp [hac, lt_asymm hac] at htu
        · simp [hab, lt_asymm hab] at hst

/-- String equality follows from equality of the underlying character lists. -/
theorem stringDataEq {s t : String} (h : s.data = t.data) : s = t := by
  cases s; cases t; exact congrArg String.mk h

/-- Order in which Python's `sorted(kwargs.items())` arranges `(key, value)`
tuples: lexicographic on the pair, comparing the key first and the value on
ties. -/
def pairLe (a b : String × String) : Prop :=
  charsLt a.1.data b.1.data = true ∨ (a.1 = b.1 ∧ charsLe a.2.data b.2.data = true)

instance : DecidableRel pairLe := fun a b => by
  unfold pairLe; infer_instance

instance : IsTotal (String × String) pairLe := by
  constructor
  intro a b
  rcases charsLt_trichotomy a.1.data b.1.data with h | h | h
  · exact Or.inl (Or.inl h)
  · exact Or.inr (Or.inl h)
  · have hk : a.1 = b.1 := stringDataEq h
    cases hvb : charsLt b.2.data a.2.data with
    | false => exact Or.inl (Or.inr ⟨hk, by simp [charsLe, hvb]⟩)
    | true =>
      have hf : charsLt a.2.data b.2.data = false := charsLt_asymm _ _ hvb
      exact Or.inr (Or.inr ⟨hk.symm, by simp [charsLe, hf]⟩)

instance : IsTrans (String × String) pairLe := by
  constructor
  intro a b c hab hbc
  rcases hab with hab | ⟨hab, hab2⟩
  · rcases hbc with hbc | ⟨hbc, _⟩
    · exact Or.inl (charsLt_trans _ _ _ hab hbc)
    · exact Or.inl (by rw [← hbc]; exact hab)
  · rcases hbc with hbc | ⟨hbc, hbc2⟩
    · exact Or.inl (by rw [hab]; exact hbc)
    · refine Or.inr ⟨hab.trans hbc, ?_⟩
      simp only [charsLe, Bool.not_eq_true'] at hab2 hbc2 ⊢
      cases hca : charsLt c.2.data a.2.data with
      | false => rfl
      | true =>
        rcases charsLt_trichotomy a.2.data b.2.data with h | h | h
        · have h2 := charsLt_trans _ _ _ hca h
          rw [h2] at hbc2; exact absurd hbc2 (by decide)
        · rw [h] at hab2; exact absurd hab2 (by decide)
        · rw [h] at hca
          rw [hca] at hbc2; exact absurd hbc2 (by decide)

instance : IsAntisymm (String × String) pairLe := by
  constructor
  intro a b hab hba
  rcases hab with hab | ⟨hab, hab2⟩
  · rcases hba with hba | ⟨hba, _⟩
    · have h2 := charsLt_asymm _ _ hab
      rw [h2] at hba; exact absurd hba (by decide)
    · have hba' : a.1.data = b.1.data := congrArg String.data hba.symm
      rw [hba'] at hab
      have h2 := charsLt_asymm _ _ hab
      rw [hab] at h2; exact absurd h2 (by decide)
  · rcases hba with hba | ⟨hba, hba2⟩
    · have hab' : a.1.data = b.1.data := congrArg String.data hab
      rw [← hab'] at hba
      have h2 := charsLt_asymm _ _ hba
      rw [hba] at h2; exact absurd h2 (by decide)
    · have hv : a.2 = b.2 := by
        apply stringDataEq
        simp only [charsLe, Bool.not_eq_true'] at hab2 hba2
        rcases charsLt_trichotomy a.2.data b.2.data with h | h | h
        · rw [h] at hba2; exact absurd hba2 (by decide)
        · rw [h] at hab2; exact absurd hab2 (by decide)
        · exact h
      exact Prod.ext hab hv

/-- Model of Python's `sorted(kwargs.items())`: the keyword-argument pairs
arranged in ascending tuple order. -/
def sortedItems (kwargs : List (String × String)) : List (String × String) :=
  List.insertionSort pairLe kwargs

/-- Rendering of one `(key, value)` tuple inside `str(sorted(kwargs.items()))`. -/
def pyTupleStr (p : String × String) : String :=
  "(" ++ reprStr p.1 ++ ", " ++ reprStr p.2 ++ ")"

/-- Rendering of a list of tuples, as Python's `str` does when interpolated
into an f-string. -/
def pyListStr (l : List (String × String)) : String :=
  "[" ++ String.intercalate ", " (l.map pyTupleStr) ++ "]"

/-- Embeds the cache-key construction in `BaseDataLoader._get_cache_path`:
`cache_key = f"{source}_{sorted(kwargs.items())}"`. -/
def cache_key (source : String) (kwargs : List (String × String)) : String :=
  source ++ "_" ++ pyListStr (sortedItems kwargs)

/-- The slice of the process-wide `AppSettings` (config/settings.py) that the
loader reads: `cache_enabled`, `cache_ttl_hours`, `cache_dir`, `debug`.
The pydantic field validator constrains the settings-level TTL to 1..168,
which is recorded as a hypothesis where a theorem needs it. -/
structure AppSettings where
  cache_enabled : Bool
  cache_ttl_hours : Int
  cache_dir : String
  debug : Bool

/-- The loader state established by `BaseDataLoader.__init__`. `loader_name`
stands for `self.__class__.__name__.lower().replace("loader", "")`, fixed
per concrete loader type. -/
structure BaseDataLoader where
  cache_enabled : Bool
  cache_ttl_hours : Int
  cache_dir : String
  loader_name : String

/-- Embeds `BaseDataLoader.__init__`:
`self.cache_enabled = cache_enabled and settings.cache_enabled`,
`self.cache_ttl_hours = cache_ttl_hours or settings.cache_ttl_hours` (Python
`or`, so a `None` *or zero* argument falls back to the settings value), and
`self.cache_dir = cache_dir or settings.cache_dir` (a `Path` is always
truthy, so any passed directory wins). -/
def BaseDataLoader.init (settings : AppSettings) (loader_name : String)
    (cache_enabled : Bool) (cache_ttl_hours : Option Int)
    (cache_dir : Option String) : BaseDataLoader :=
  { cache_enabled := cache_enabled && settings.cache_enabled
    cache_ttl_hours :=
      match cache_ttl_hours with
      | none => settings.cache_ttl_hours
      | some t => if t = 0 then settings.cache_ttl_hours else t
    cache_dir :=
      match cache_dir with
      | none => settings.cache_dir
      | some dir => dir
    loader_name := loader_name }

/-- First 16 hex characters of the digest: `hexdigest()[:16]` with the
digest function abstract. -/
def hashVal (hashHex : String → List Char) (key : String) : List Char :=
  (hashHex key).take 16

/-- Embeds the filename built by `BaseDataLoader._get_cache_path`:
`f"{loader_name}_{hash_value}.cache"`. -/
def cacheFileName (hashHex : String → List Char) (L : BaseDataLoader)
    (source : String) (kwargs : List (String × String)) : String :=
  L.loader_name ++ "_" ++ String.mk (hashVal hashHex (cache_key source kwargs)) ++ ".cache"

/-- Embeds `BaseDataLoader._get_cache_path`: the filename joined under the
configured cache directory (`self.cache_dir / filename`). -/
def getCachePath (hashHex : String → List Char) (L : BaseDataLoader)
    (source : String) (kwargs : List (String × String)) : String :=
  L.cache_dir ++ "/" ++ cacheFileName hashHex L source kwargs

/-- Content of one on-disk cache entry as the concrete loader's deserializer
sees it: either well-formed serialized data or content it rejects. -/
inductive CacheFile (α : Type) where
  | good (a : α)
  | corrupt
deriving DecidableEq

/-- One file of the cache directory: name, content, and modification time
(seconds, as `time.time()` reports). -/
structure FileEntry (α : Type) where
  name : String
  content : CacheFile α
  mtime : ℚ
deriving DecidableEq

/-- The cache directory's contents. -/
abbrev CacheDir (α : Type) := List (FileEntry α)

/-- File lookup by name (`Path.exists` / `stat` / read on one path). -/
def lookupFile {α : Type} : CacheDir α → String → Option (CacheFile α × ℚ)
  | [], _ => none
  | f :: rest, name =>
      if f.name = name then some (f.content, f.mtime) else lookupFile rest name

/-- File deletion by name (`Path.unlink`). -/
def eraseFile {α : Type} : CacheDir α → String → CacheDir α
  | [], _ => []
  | f :: rest, name =>
      if f.name = name then eraseFile rest name else f :: eraseFile rest name

/-- File creation or overwrite, stamping the current time. -/
def writeFile {α : Type} (d : CacheDir α) (name : String) (c : CacheFile α)
    (mtime : ℚ) : CacheDir α :=
  eraseFile d name ++ [⟨name, c, mtime⟩]

/-- Whether the first character list begins with the second. -/
def beginsWith : List Char → List Char → Bool
  | _, [] => true
  | [], _ :: _ => false
  | c :: n, p :: ps => if c = p then beginsWith n ps else false

/-- Whether the first character list ends with the second. -/
def finishesWith (n s : List Char) : Bool :=
  beginsWith n.reverse s.reverse

/-- Filename match for the glob pattern used by `clear_cache` and
`get_cache_info`: a leading part, then `*`, then a trailing part. -/
def globMatch (pre suf name : String) : Bool :=
  beginsWith name.data pre.data && finishesWith (name.data.drop pre.data.length) suf.data

/-- Embeds `BaseDataLoader._is_cache_valid`: the file must exist and
`(time.time() - st_mtime) / 3600 <= self.cache_ttl_hours`. -/
def BaseDataLoader.is_cache_valid {α : Type} (L : BaseDataLoader) (d : CacheDir α)
    (now : ℚ) (name : String) : Bool :=
  match lookupFile d name with
  | none => false
  | some (_, mtime) => decide ((now - mtime) / 3600 ≤ (L.cache_ttl_hours : ℚ))

/-- Embeds the filesystem effect of `BaseDataLoader._handle_cache_error`:
delete the offending file if a path was given and it exists (the debug
console output has no state effect, and a failed unlink is swallowed). -/
def BaseDataLoader.handle_cache_error {α : Type} (d : CacheDir α)
    (cache_path : Option String) : CacheDir α :=
  match cache_path with
  | some name => eraseFile d name
  | none => d

/-- Exceptions crossing the loader's boundary. `dataLoadError` carries the
message, the source, and the wrapped original exception, exactly the fields
`DataLoadError.__init__` stores; `cacheError` is `CacheError`; `other`
stands for any other Python exception. -/
inductive PyExc where
  | dataLoadError (msg : String) (source : String) (original_error : Option PyExc)
  | cacheError (msg : String)
  | other (msg : String)

/-- Python's `str(e)` for the exceptions modelled here: the stored message. -/
def excMessage : PyExc → String
  | .dataLoadError msg _ _ => msg
  | .cacheError msg => msg
  | .other msg => msg

/-- Embeds the top-level `except` clauses of `load_data`:
`except DataLoadError: raise` re-raises unchanged, and any other exception
becomes `DataLoadError(f"データロードに失敗しました: {e}", source, original_error=e)`. -/
def wrapLoadError (source : String) (e : PyExc) : PyExc :=
  match e with
  | .dataLoadError msg src orig => .dataLoadError msg src orig
  | e => .dataLoadError ("データロードに失敗しました: " ++ excMessage e) source (some e)

/-- Embeds the `DataLoadResult` dataclass. `load_time_seconds` is wall-clock
time, set to 0 in this embedding (no claim concerns it); `metadata` holds
the one key the code writes, `{"cache_ttl_hours": self.cache_ttl_hours}`. -/
structure DataLoadResult (α : Type) where
  data : α
  source : String
  cached : Bool
  load_time_seconds : ℚ
  cache_path : Option String
  metadata : Option Int

/-- Outcome of one `_save_to_cache` call: it returns normally (writing
well-formed content), or it raises, possibly leaving behind whatever it
managed to write before failing. -/
inductive SaveBehavior (α : Type) where
  | ok
  | raised (leftover : Option (CacheFile α))

/-- The capability set a concrete loader supplies: the behavior of
`_load_data_from_source` (may raise) and of `_save_to_cache` (may raise).
`_load_from_cache` is determined by the file content: it returns the data
of a `good` file and raises on `corrupt`. -/
structure LoaderOps (α : Type) where
  fetch : String → List (String × String) → Except PyExc α
  save : α → SaveBehavior α

/-- Directory state after a `_save_to_cache` call that raised: whatever the
failed save managed to write before failing is at the path (or nothing is). -/
def leftoverWrite {α : Type} (d : CacheDir α) (name : String)
    (w : Option (CacheFile α)) (t : ℚ) : CacheDir α :=
  match w with
  | some c => writeFile d name c t
  | none => d

/-- Result of one `load_data` call over the explicit state: the returned
value or the raised exception, the cache directory afterwards, and how many
times `_load_data_from_source` was invoked during the call. -/
structure LoadOutcome (α : Type) where
  result : Except PyExc (DataLoadResult α)
  dir : CacheDir α
  fetchCalls : Nat

/-- The cache-lookup block at the top of `load_data`: when caching is enabled
and `_is_cache_valid` holds, try `_load_from_cache`; a `good` file yields its
payload, anything else raises inside the inner `try` and is handled by
`_handle_cache_error` (which deletes the file), falling through to the fresh
load. Returns the payload on a hit and the possibly-cleaned directory. -/
def cacheLookupPhase {α : Type} (L : BaseDataLoader) (d : CacheDir α) (now : ℚ)
    (name : String) : Option α × CacheDir α :=
  if L.cache_enabled then
    if L.is_cache_valid d now name then
      match lookupFile d name with
      | some (.good a, _) => (some a, d)
      | _ => (none, BaseDataLoader.handle_cache_error d (some name))
    else (none, d)
  else (none, d)

/-- Embeds `BaseDataLoader.load_data`. After the cache-lookup block, a hit
returns `cached=True` with the cache path and TTL metadata; otherwise
`_load_data_from_source` runs (its exception re-raised per `wrapLoadError`),
then, when caching is enabled, `cache_path_save` is derived and
`_save_to_cache` attempted, a failure being handled by `_handle_cache_error`
(delete the file) while the fresh result is still returned with
`cached=False` and `cache_path = cache_path_save`. -/
def BaseDataLoader.load_data {α : Type} (L : BaseDataLoader) (ops : LoaderOps α)
    (hashHex : String → List Char) (source : String)
    (kwargs : List (String × String)) (d : CacheDir α) (now : ℚ) : LoadOutcome α :=
  let name := cacheFileName hashHex L source kwargs
  match cacheLookupPhase L d now name with
  | (some a, dir') =>
      { result := .ok
          { data := a
            source := source
            cached := true
            load_time_seconds := 0
            cache_path := some (getCachePath hashHex L source kwargs)
            metadata := some L.cache_ttl_hours }
        dir := dir'
        fetchCalls := 0 }
  | (none, dir') =>
      match ops.fetch source kwargs with
      | .error e =>
          { result := .error (wrapLoadError source e), dir := dir', fetchCalls := 1 }
      | .ok a =>
          if L.cache_enabled then
            match ops.save a with
            | .ok =>
                { result := .ok
                    { data := a
                      source := source
                      cached := false
                      load_time_seconds := 0
                      cache_path := some (getCachePath hashHex L source kwargs)
                      metadata := some L.cache_ttl_hours }
                  dir := writeFile dir' name (.good a) now
                  fetchCalls := 1 }
            | .raised leftover =>
                { result := .ok
                    { data := a
                      source := source
                      cached := false
                      load_time_seconds := 0
                      cache_path := some (getCachePath hashHex L source kwargs)
                      metadata := some L.cache_ttl_hours }
                  dir := BaseDataLoader.handle_cache_error
                    (leftoverWrite dir' name leftover now) (some name)
                  fetchCalls := 1 }
          else
            { result := .ok
                { data := a
                  source := source
                  cached := false
                  load_time_seconds := 0
                  cache_path := none
                  metadata := some L.cache_ttl_hours }
              dir := dir'
              fetchCalls := 1 }

/-- Embeds `BaseDataLoader.clear_cache` over an optional directory (`none`
models an absent cache directory). With no source, every file matching the
loader's glob pattern is unlinked and counted; with a source, only the one
derived entry (0 or 1); disabled caching or an absent directory is a no-op
returning 0. -/
def BaseDataLoader.clear_cache {α : Type} (L : BaseDataLoader)
    (hashHex : String → List Char) (source : Option String)
    (kwargs : List (String × String)) (fs : Option (CacheDir α)) :
    Option (CacheDir α) × Nat :=
  if L.cache_enabled then
    match fs with
    | none => (none, 0)
    | some d =>
        match source with
        | none =>
            (some (d.filter (fun f => ! globMatch (L.loader_name ++ "_") ".cache" f.name)),
             (d.filter (fun f => globMatch (L.loader_name ++ "_") ".cache" f.name)).length)
        | some src =>
            let name := cacheFileName hashHex L src kwargs
            if (lookupFile d name).isSome then (some (eraseFile d name), 1)
            else (some d, 0)
  else (fs, 0)

/-- One element of the `files` list `get_cache_info` returns. -/
structure CacheFileInfo where
  path : String
  size_bytes : Nat
  modified_time : ℚ
  age_hours : ℚ
  valid : Bool

/-- The dictionary `get_cache_info` returns; `files = none` models the
disabled/absent-directory dictionary, which has no `files` key. -/
structure CacheInfo where
  enabled : Bool
  cache_dir : String
  ttl_hours : Int
  file_count : Nat
  total_size_bytes : Nat
  files : Option (List CacheFileInfo)

/-- Embeds `BaseDataLoader.get_cache_info`, in the same explicit-state style
as the mutating operations so that its frame property is a statement: it
returns the info dictionary together with the directory state after the
call. `sizeFn` models `stat().st_size` as a function of a file's content. -/
def BaseDataLoader.get_cache_info {α : Type} (L : BaseDataLoader)
    (sizeFn : CacheFile α → Nat) (fs : Option (CacheDir α)) (now : ℚ) :
    CacheInfo × Option (CacheDir α) :=
  if L.cache_enabled then
    match fs with
    | none =>
        ({ enabled := false, cache_dir := L.cache_dir, ttl_hours := L.cache_ttl_hours,
           file_count := 0, total_size_bytes := 0, files := none }, none)
    | some d =>
        let cacheFiles := d.filter (fun f => globMatch (L.loader_name ++ "_") ".cache" f.name)
        ({ enabled := true, cache_dir := L.cache_dir, ttl_hours := L.cache_ttl_hours,
           file_count := cacheFiles.length,
           total_size_bytes := (cacheFiles.map (fun f => sizeFn f.content)).sum,
           files := some (cacheFiles.map (fun f =>
             { path := L.cache_dir ++ "/" ++ f.name,
               size_bytes := sizeFn f.content,
               modified_time := f.mtime,
               age_hours := (now - f.mtime) / 3600,
               valid := L.is_cache_valid d now f.name })) }, some d)
  else
    ({ enabled := false, cache_dir := L.cache_dir, ttl_hours := L.cache_ttl_hours,
       file_count := 0, total_size_bytes := 0, files := none }, fs)

theorem lookupFile_append_left_none {α : Type} (d₁ d₂ : CacheDir α) (name : String)
    (h : lookupFile d₁ name = none) :
    lookupFile (d₁ ++ d₂) name = lookupFile d₂ name := by
  induction d₁ with
  | nil => rfl
  | cons f rest ih =>
    by_cases hf : f.name = name
    · simp only [lookupFile, if_pos hf] at h
      cases h
    · simp only [lookupFile, if_neg hf] at h
      simp only [List.cons_append, lookupFile, if_neg hf]
      exact ih h

theorem lookupFile_eraseFile_self {α : Type} (d : CacheDir α) (name : String) :
    lookupFile (eraseFile d name) name = none := by
  induction d with
  | nil => rfl
  | cons f rest ih =>
    by_cases hf : f.name = name
    · simp only [eraseFile, if_pos hf]
      exact ih
    · simp only [eraseFile, if_neg hf, lookupFile]
      exact ih

theorem lookupFile_writeFile_self {α : Type} (d : CacheDir α) (name : String)
    (c : CacheFile α) (t : ℚ) :
    lookupFile (writeFile d name c t) name = some (c, t) := by
  unfold writeFile
  rw [lookupFile_append_left_none _ _ _ (lookupFile_eraseFile_self d name)]
  simp [lookupFile]

theorem is_cache_valid_of_none {α : Type} (L : BaseDataLoader) (d : CacheDir α)
    (now : ℚ) (name : String) (h : lookupFile d name = none) :
    L.is_cache_valid d now name = false := by
  unfold BaseDataLoader.is_cache_valid
  rw [h]

theorem is_cache_valid_of_some_le {α : Type} (L : BaseDataLoader) (d : CacheDir α)
    (now : ℚ) (name : String) (c : CacheFile α) (m : ℚ)
    (h : lookupFile d name = some (c, m))
    (hle : (now - m) / 3600 ≤ (L.cache_ttl_hours : ℚ)) :
    L.is_cache_valid d now name = true := by
  unfold BaseDataLoader.is_cache_valid
  rw [h]
  exact decide_eq_true hle

theorem cacheLookupPhase_of_lookup_none {α : Type} (L : BaseDataLoader) (d : CacheDir α)
    (now : ℚ) (name : String) (h : lookupFile d name = none) :
    cacheLookupPhase L d now name = (none, d) := by
  unfold cacheLookupPhase
  rw [is_cache_valid_of_none L d now name h]
  cases L.cache_enabled <;> simp

theorem cacheLookupPhase_disabled {α : Type} (L : BaseDataLoader) (d : CacheDir α)
    (now : ℚ) (name : String) (hce : L.cache_enabled = false) :
    cacheLookupPhase L d now name = (none, d) := by
  unfold cacheLookupPhase
  rw [hce]
  simp

theorem cacheLookupPhase_hit {α : Type} (L : BaseDataLoader) (d : CacheDir α)
    (now : ℚ) (name : String) (a : α) (m : ℚ)
    (hce : L.cache_enabled = true)
    (h : lookupFile d name = some (.good a, m))
    (hle : (now - m) / 3600 ≤ (L.cache_ttl_hours : ℚ)) :
    cacheLookupPhase L d now name = (some a, d) := by
  unfold cacheLookupPhase
  rw [hce, is_cache_valid_of_some_le L d now name _ m h hle, h]
  simp

theorem cacheLookupPhase_corrupt {α : Type} (L : BaseDataLoader) (d : CacheDir α)
    (now : ℚ) (name : String) (m : ℚ)
    (hce : L.cache_enabled = true)
    (h : lookupFile d name = some (.corrupt, m))
    (hle : (now - m) / 3600 ≤ (L.cache_ttl_hours : ℚ)) :
    cacheLookupPhase L d now name = (none, eraseFile d name) := by
  unfold cacheLookupPhase
  rw [hce, is_cache_valid_of_some_le L d now name _ m h hle, h]
  simp [BaseDataLoader.handle_cache_error]

theorem load_data_of_hit {α : Type} (L : BaseDataLoader) (ops : LoaderOps α)
    (hashHex : String → List Char) (source : String) (kwargs : List (String × String))
    (d : CacheDir α) (now : ℚ) (a : α)
    (hphase : cacheLookupPhase L d now (cacheFileName hashHex L source kwargs) = (some a, d)) :
    L.load_data ops hashHex source kwargs d now =
      { result := .ok
          { data := a
            source := source
            cached := true
            load_time_seconds := 0
            cache_path := some (getCachePath hashHex L source kwargs)
            metadata := some L.cache_ttl_hours }
        dir := d
        fetchCalls := 0 } := by
  simp only [BaseDataLoader.load_data]
  rw [hphase]

theorem load_data_of_fetch_err {α : Type} (L : BaseDataLoader) (ops : LoaderOps α)
    (hashHex : String → List Char) (source : String) (kwargs : List (String × String))
    (d d' : CacheDir α) (now : ℚ) (e : PyExc)
    (hphase : cacheLookupPhase L d now (cacheFileName hashHex L source kwargs) = (none, d'))
    (hfetch : ops.fetch source kwargs = .error e) :
    L.load_data ops hashHex source kwargs d now =
      { result := .error (wrapLoadError source e), dir := d', fetchCalls := 1 } := by
  simp only [BaseDataLoader.load_data]
  rw [hphase, hfetch]

theorem load_data_of_fresh_saved {α : Type} (L : BaseDataLoader) (ops : LoaderOps α)
    (hashHex : String → List Char) (source : String) (kwargs : List (String × String))
    (d d' : CacheDir α) (now : ℚ) (a : α)
    (hphase : cacheLookupPhase L d now (cacheFileName hashHex L source kwargs) = (none, d'))
    (hce : L.cache_enabled = true)
    (hfetch : ops.fetch source kwargs = .ok a)
    (hsave : ops.save a = .ok) :
    L.load_data ops hashHex source kwargs d now =
      { result := .ok
          { data := a
            source := source
            cached := false
            load_time_seconds := 0
            cache_path := some (getCachePath hashHex L source kwargs)
            metadata := some L.cache_ttl_hours }
        dir := writeFile d' (cacheFileName hashHex L source kwargs) (.good a) now
        fetchCalls := 1 } := by
  simp [BaseDataLoader.load_data, hphase, hfetch, hce, hsave]

theorem load_data_of_fresh_save_raised {α : Type} (L : BaseDataLoader) (ops : LoaderOps α)
    (hashHex : String → List Char) (source : String) (kwargs : List (String × String))
    (d d' : CacheDir α) (now : ℚ) (a : α) (leftover : Option (CacheFile α))
    (hphase : cacheLookupPhase L d now (cacheFileName hashHex L source kwargs) = (none, d'))
    (hce : L.cache_enabled = true)
    (hfetch : ops.fetch source kwargs = .ok a)
    (hsave : ops.save a = .raised leftover) :
    L.load_data ops hashHex source kwargs d now =
      { result := .ok
          { data := a
            source := source
            cached := false
            load_time_seconds := 0
            cache_path := some (getCachePath hashHex L source kwargs)
            metadata := some L.cache_ttl_hours }
        dir := eraseFile
          (leftoverWrite d' (cacheFileName hashHex L source kwargs) leftover now)
          (cacheFileName hashHex L source kwargs)
        fetchCalls := 1 } := by
  simp [BaseDataLoader.load_data, hphase, hfetch, hce, hsave,
    BaseDataLoader.handle_cache_error]

theorem load_data_of_fresh_disabled {α : Type} (L : BaseDataLoader) (ops : LoaderOps α)
    (hashHex : String → List Char) (source : String) (kwargs : List (String × String))
    (d : CacheDir α) (now : ℚ) (a : α)
    (hce : L.cache_enabled = false)
    (hfetch : ops.fetch source kwargs = .ok a) :
    L.load_data ops hashHex source kwargs d now =
      { result := .ok
          { data := a
            source := source
            cached := false
            load_time_seconds := 0
            cache_path := none
            metadata := some L.cache_ttl_hours }
        dir := d
        fetchCalls := 1 } := by
  simp only [BaseDataLoader.load_data]
  rw [cacheLookupPhase_disabled L d now _ hce, hfetch, hce]
  simp

theorem sortedItems_of_perm {l₁ l₂ : List (String × String)} (h : l₁.Perm l₂) :
    sortedItems l₁ = sortedItems l₂ :=
  List.eq_of_perm_of_sorted
    ((List.perm_insertionSort pairLe l₁).trans (h.trans (List.perm_insertionSort pairLe l₂).symm))
    (List.sorted_insertionSort pairLe l₁) (List.sorted_insertionSort pairLe l₂)

theorem cache_key_of_perm (source : String) {l₁ l₂ : List (String × String)}
    (h : l₁.Perm l₂) : cache_key source l₁ = cache_key source l₂ := by
  unfold cache_key
  rw [sortedItems_of_perm h]

theorem getCachePath_of_perm (hashHex : String → List Char) (L : BaseDataLoader)
    (source : String) {l₁ l₂ : List (String × String)} (h : l₁.Perm l₂) :
    getCachePath hashHex L source l₁ = getCachePath hashHex L source l₂ := by
  unfold getCachePath cacheFileName hashVal
  rw [cache_key_of_perm source h]

/-- Hexadecimal digit of a lowercase hex digest. -/
def isHexChar (c : Char) : Bool := c.isDigit || ('a' ≤ c && c ≤ 'f')

/-- Claim C2: for every source string and parameter mapping,
`_get_cache_path` is deterministic, reordering the keyword parameters does
not change the resulting path, and the returned path is a file under the
configured cache directory named `{loader_name}_{digest}.cache`, where the
digest is a 16-hex-character prefix of the digest of the cache key — the
source concatenated with the parameters sorted by key. The digest function
(`hashlib.sha256(...).hexdigest()`) enters abstractly, under the hypothesis
that it returns 64 lowercase hex characters. -/
theorem claim_C2_get_cache_path (hashHex : String → List Char) (L : BaseDataLoader)
    (source : String) (kwargs kwargs' : List (String × String))
    (hperm : kwargs.Perm kwargs')
    (hhex : ∀ s, (hashHex s).length = 64 ∧ ∀ c ∈ hashHex s, isHexChar c = true) :
    getCachePath hashHex L source kwargs = getCachePath hashHex L source kwargs ∧
    getCachePath hashHex L source kwargs = getCachePath hashHex L source kwargs' ∧
    ∃ digest rest,
      getCachePath hashHex L source kwargs =
        L.cache_dir ++ "/" ++ (L.loader_name ++ "_" ++ String.mk digest ++ ".cache") ∧
      digest.length = 16 ∧
      (∀ c ∈ digest, isHexChar c = true) ∧
      hashHex (cache_key source kwargs) = digest ++ rest := by
  refine ⟨rfl, getCachePath_of_perm hashHex L source hperm, ?_⟩
  refine ⟨hashVal hashHex (cache_key source kwargs),
    (hashHex (cache_key source kwargs)).drop 16, rfl, ?_, ?_, ?_⟩
  · simp [hashVal, List.length_take, (hhex (cache_key source kwargs)).1]
  · intro c hc
    exact (hhex (cache_key source kwargs)).2 c (List.take_subset 16 _ hc)
  · exact (List.take_append_drop 16 _).symm

/-- Settings with the defaults relevant to the loader: caching on, TTL 24
hours (the pydantic defaults). -/
def settingsDefault : AppSettings :=
  { cache_enabled := true, cache_ttl_hours := 24,
    cache_dir := "/home/user/.cache/compare-regions-jp", debug := false }

/-- Settings with caching globally disabled. -/
def settingsCacheOff : AppSettings :=
  { cache_enabled := false, cache_ttl_hours := 24,
    cache_dir := "/home/user/.cache/compare-regions-jp", debug := false }

/-- A loader instance constructed with all defaults against
`settingsDefault` (concrete type name `RailwayDataLoader`). -/
def loaderRailway : BaseDataLoader :=
  BaseDataLoader.init settingsDefault "railway" true none none

/-- Claim C6 counterexample: a loader constructed with `cache_ttl_hours = 0`
does not make every existing entry stale. Python's `or` discards the falsy
`0`, so the effective TTL is the settings default (24 here), and a cache
file one hour old is still reported valid by `_is_cache_valid`. -/
theorem claim_C6_counterexample :
    (BaseDataLoader.init settingsDefault "railway" true (some 0) none).cache_ttl_hours = 24 ∧
    BaseDataLoader.is_cache_valid (α := Nat)
      (BaseDataLoader.init settingsDefault "railway" true (some 0) none)
      [⟨"railway_0000000000000000.cache", .good 0, 0⟩] 3600
      "railway_0000000000000000.cache" = true := by
  constructor
  · rfl
  · refine is_cache_valid_of_some_le _ _ _ _ (CacheFile.good 0) 0 ?_ ?_
    · rfl
    · have h24 : (BaseDataLoader.init settingsDefault "railway" true
          (some 0) none).cache_ttl_hours = 24 := rfl
      rw [h24]
      norm_num

/-- Claim C6 amended: a strictly negative `cache_ttl_hours` argument does
take effect (a nonzero int is truthy), and then every existing cache file
whose modification time is not in the future is stale — `_is_cache_valid`
returns false for it. A zero argument, however, is falsy and is replaced by
the settings default, so it does not make entries stale; and even a file
with age exactly 0 would satisfy `age <= 0`. -/
theorem claim_C6_amended {α : Type} (settings : AppSettings) (nm : String)
    (e : Bool) (t : Int) (dirO : Option String) (d : CacheDir α) (name : String)
    (c : CacheFile α) (m now : ℚ)
    (ht : t < 0) (hlookup : lookupFile d name = some (c, m)) (hmt : m ≤ now) :
    BaseDataLoader.is_cache_valid (BaseDataLoader.init settings nm e (some t) dirO)
      d now name = false := by
  have ht0 : ¬ (t = 0) := by omega
  have httl : (BaseDataLoader.init settings nm e (some t) dirO).cache_ttl_hours = t := by
    simp [BaseDataLoader.init, ht0]
  simp only [BaseDataLoader.is_cache_valid, hlookup]
  rw [httl, decide_eq_false_iff_not]
  intro hc
  have h0 : (0:ℚ) ≤ (now - m) / 3600 := div_nonneg (by linarith) (by norm_num)
  have ht' : (t:ℚ) < 0 := by exact_mod_cast ht
  linarith

/-- Witness for the amended C6 at TTL -5 on a one-hour-old entry. -/
theorem claim_C6_amended_witness :
    (-5 : Int) < 0 ∧
    lookupFile ([⟨"railway_x.cache", .good 0, 0⟩] : CacheDir Nat) "railway_x.cache"
      = some (.good 0, 0) ∧
    (0 : ℚ) ≤ 3600 ∧
    BaseDataLoader.is_cache_valid
      (BaseDataLoader.init settingsDefault "railway" true (some (-5)) none)
      ([⟨"railway_x.cache", .good 0, 0⟩] : CacheDir Nat) 3600 "railway_x.cache" = false :=
  ⟨by norm_num, rfl, by norm_num,
    claim_C6_amended settingsDefault "railway" true (-5) none
      [⟨"railway_x.cache", .good 0, 0⟩] "railway_x.cache" (.good 0) 0 3600
      (by norm_num) rfl (by norm_num)⟩

/-- Claim C7 counterexample: with the process-wide setting
`cache_enabled = False`, passing `cache_enabled=True` to the constructor
does not override it — `self.cache_enabled = cache_enabled and
settings.cache_enabled` yields `False`, not the passed value. -/
theorem claim_C7_counterexample :
    (BaseDataLoader.init settingsCacheOff "railway" true none none).cache_enabled ≠ true := by
  simp [BaseDataLoader.init, settingsCacheOff]

/-- Claim C7 amended: `cache_dir` passed is always effective and otherwise
defaults to the settings value; a passed `cache_ttl_hours` is effective
exactly when nonzero, a zero (or absent) argument yielding the settings
value; and the effective `cache_enabled` is the conjunction of the passed
value with the settings value, so it equals the passed value only when the
settings have caching enabled. -/
theorem claim_C7_amended (s : AppSettings) (nm : String) (e : Bool) (t : Int)
    (tO : Option Int) (dO : Option String) (dir : String) (ht : t ≠ 0) :
    (BaseDataLoader.init s nm e tO (some dir)).cache_dir = dir ∧
    (BaseDataLoader.init s nm e tO none).cache_dir = s.cache_dir ∧
    (BaseDataLoader.init s nm e (some t) dO).cache_ttl_hours = t ∧
    (BaseDataLoader.init s nm e (some 0) dO).cache_ttl_hours = s.cache_ttl_hours ∧
    (BaseDataLoader.init s nm e none dO).cache_ttl_hours = s.cache_ttl_hours ∧
    (BaseDataLoader.init s nm e tO dO).cache_enabled = (e && s.cache_enabled) := by
  refine ⟨rfl, rfl, ?_, by simp [BaseDataLoader.init], rfl, rfl⟩
  simp [BaseDataLoader.init, ht]

/-- Witness for the amended C7 at concrete arguments. -/
theorem claim_C7_amended_witness :
    (12 : Int) ≠ 0 ∧
    ((BaseDataLoader.init settingsDefault "railway" true none (some "/data/c")).cache_dir
        = "/data/c" ∧
     (BaseDataLoader.init settingsDefault "railway" true none none).cache_dir
        = settingsDefault.cache_dir ∧
     (BaseDataLoader.init settingsDefault "railway" true (some 12) none).cache_ttl_hours = 12 ∧
     (BaseDataLoader.init settingsDefault "railway" true (some 0) none).cache_ttl_hours
        = settingsDefault.cache_ttl_hours ∧
     (BaseDataLoader.init settingsDefault "railway" true none none).cache_ttl_hours
        = settingsDefault.cache_ttl_hours ∧
     (BaseDataLoader.init settingsDefault "railway" true none none).cache_enabled
        = (true && settingsDefault.cache_enabled)) :=
  ⟨by norm_num,
    claim_C7_amended settingsDefault "railway" true 12 none none "/data/c" (by norm_num)⟩

/-- Digest model that returns no characters; used where a claim does not
depend on the digest's content. -/
def hashZero : String → List Char := fun _ => []

/-- Concrete ops: fetch succeeds with 42, save succeeds. -/
def opsOk : LoaderOps Nat :=
  { fetch := fun _ _ => .ok 42, save := fun _ => .ok }

/-- Concrete ops: fetch succeeds with 42, save raises leaving nothing. -/
def opsSaveRaise : LoaderOps Nat :=
  { fetch := fun _ _ => .ok 42, save := fun _ => .raised none }

/-- Concrete ops: fetch raises a non-DataLoadError exception. -/
def opsFetchRaise : LoaderOps Nat :=
  { fetch := fun _ _ => .error (.other "boom"), save := fun _ => .ok }

/-- Claim C5: an exception raised during the fresh fetch that is not already
a `DataLoadError` is caught at the top level of `load_data` and re-raised as
a `DataLoadError` carrying the source and the original exception as wrapped
cause; a `DataLoadError` is propagated unchanged; in both cases `load_data`
ends in an error, never a silent success. Stated for a call whose derived
cache path has no entry, so the fetch is reached. -/
theorem claim_C5_fetch_error {α : Type} (L : BaseDataLoader) (ops : LoaderOps α)
    (hashHex : String → List Char) (source : String)
    (kwargs : List (String × String)) (d : CacheDir α) (now : ℚ) (e : PyExc)
    (hmiss : lookupFile d (cacheFileName hashHex L source kwargs) = none)
    (hfetch : ops.fetch source kwargs = .error e) :
    (L.load_data ops hashHex source kwargs d now).result = .error (wrapLoadError source e) ∧
    (∀ msg src orig, e = .dataLoadError msg src orig → wrapLoadError source e = e) ∧
    ((∀ msg src orig, e ≠ .dataLoadError msg src orig) →
      wrapLoadError source e =
        .dataLoadError ("データロードに失敗しました: " ++ excMessage e) source (some e)) := by
  refine ⟨?_, ?_, ?_⟩
  · rw [load_data_of_fetch_err L ops hashHex source kwargs d d now e
      (cacheLookupPhase_of_lookup_none L d now _ hmiss) hfetch]
  · intro msg src orig he
    subst he
    rfl
  · intro h
    cases e with
    | dataLoadError msg src orig => exact absurd rfl (h msg src orig)
    | cacheError msg => rfl
    | other msg => rfl

/-- Witness for C5: a fetch raising a plain exception against an empty
cache directory. -/
theorem claim_C5_witness :
    lookupFile ([] : CacheDir Nat)
      (cacheFileName hashZero loaderRailway "https://example.com/ds" []) = none ∧
    opsFetchRaise.fetch "https://example.com/ds" [] = .error (.other "boom") ∧
    ((loaderRailway.load_data opsFetchRaise hashZero "https://example.com/ds" [] [] 0).result
        = .error (wrapLoadError "https://example.com/ds" (.other "boom")) ∧
     (∀ msg src orig, (PyExc.other "boom") = .dataLoadError msg src orig →
        wrapLoadError "https://example.com/ds" (.other "boom") = .other "boom") ∧
     ((∀ msg src orig, (PyExc.other "boom") ≠ .dataLoadError msg src orig) →
        wrapLoadError "https://example.com/ds" (.other "boom") =
          .dataLoadError ("データロードに失敗しました: " ++ excMessage (.other "boom"))
            "https://example.com/ds" (some (.other "boom")))) :=
  ⟨rfl, rfl,
    claim_C5_fetch_error loaderRailway opsFetchRaise hashZero "https://example.com/ds"
      [] [] 0 (.other "boom") rfl rfl⟩

/-- Claim C4: if the fresh fetch succeeds but `_save_to_cache` raises for
the derived cache entry, `load_data` does not raise: it returns a
`DataLoadResult` with `cached=False` containing the freshly fetched
payload. -/
theorem claim_C4_save_failure_resilience {α : Type} (L : BaseDataLoader)
    (ops : LoaderOps α) (hashHex : String → List Char) (source : String)
    (kwargs : List (String × String)) (d : CacheDir α) (now : ℚ) (a : α)
    (leftover : Option (CacheFile α))
    (hce : L.cache_enabled = true)
    (hmiss : lookupFile d (cacheFileName hashHex L source kwargs) = none)
    (hfetch : ops.fetch source kwargs = .ok a)
    (hsave : ops.save a = .raised leftover) :
    ∃ r, (L.load_data ops hashHex source kwargs d now).result = .ok r ∧
      r.cached = false ∧ r.data = a := by
  have h1 := load_data_of_fresh_save_raised L ops hashHex source kwargs d d now a leftover
    (cacheLookupPhase_of_lookup_none L d now _ hmiss) hce hfetch hsave
  exact ⟨_, by rw [h1], rfl, rfl⟩

/-- Witness for C4: save raising on an empty cache directory. -/
theorem claim_C4_witness :
    loaderRailway.cache_enabled = true ∧
    lookupFile ([] : CacheDir Nat)
      (cacheFileName hashZero loaderRailway "https://example.com/ds" []) = none ∧
    opsSaveRaise.fetch "https://example.com/ds" [] = .ok 42 ∧
    opsSaveRaise.save 42 = .raised none ∧
    ∃ r, (loaderRailway.load_data opsSaveRaise hashZero "https://example.com/ds" [] [] 0).result
        = .ok r ∧ r.cached = false ∧ r.data = 42 :=
  ⟨rfl, rfl, rfl, rfl,
    claim_C4_save_failure_resilience loaderRailway opsSaveRaise hashZero
      "https://example.com/ds" [] [] 0 42 none rfl rfl rfl rfl⟩

/-- Claim C10: when caching is enabled, the fetch succeeds and
`_save_to_cache` raises, the error handler deletes the cache file, yet the
returned `DataLoadResult` still has `cache_path` set to the derived path —
naming a file that does not exist at return time. -/
theorem claim_C10_stale_cache_path {α : Type} (L : BaseDataLoader)
    (ops : LoaderOps α) (hashHex : String → List Char) (source : String)
    (kwargs : List (String × String)) (d : CacheDir α) (now : ℚ) (a : α)
    (leftover : Option (CacheFile α))
    (hce : L.cache_enabled = true)
    (hmiss : lookupFile d (cacheFileName hashHex L source kwargs) = none)
    (hfetch : ops.fetch source kwargs = .ok a)
    (hsave : ops.save a = .raised leftover) :
    ∃ r, (L.load_data ops hashHex source kwargs d now).result = .ok r ∧
      r.cache_path = some (getCachePath hashHex L source kwargs) ∧
      lookupFile (L.load_data ops hashHex source kwargs d now).dir
        (cacheFileName hashHex L source kwargs) = none := by
  have h1 := load_data_of_fresh_save_raised L ops hashHex source kwargs d d now a leftover
    (cacheLookupPhase_of_lookup_none L d now _ hmiss) hce hfetch hsave
  have hdir : (L.load_data ops hashHex source kwargs d now).dir =
      eraseFile (leftoverWrite d (cacheFileName hashHex L source kwargs) leftover now)
        (cacheFileName hashHex L source kwargs) := by rw [h1]
  refine ⟨_, by rw [h1], rfl, ?_⟩
  rw [hdir]
  exact lookupFile_eraseFile_self _ _

/-- Witness for C10 at the same concrete call as C4. -/
theorem claim_C10_witness :
    loaderRailway.cache_enabled = true ∧
    lookupFile ([] : CacheDir Nat)
      (cacheFileName hashZero loaderRailway "https://example.com/ds" []) = none ∧
    opsSaveRaise.fetch "https://example.com/ds" [] = .ok 42 ∧
    opsSaveRaise.save 42 = .raised none ∧
    ∃ r, (loaderRailway.load_data opsSaveRaise hashZero "https://example.com/ds" [] [] 0).result
        = .ok r ∧
      r.cache_path = some (getCachePath hashZero loaderRailway "https://example.com/ds" []) ∧
      lookupFile
        (loaderRailway.load_data opsSaveRaise hashZero "https://example.com/ds" [] [] 0).dir
        (cacheFileName hashZero loaderRailway "https://example.com/ds" []) = none :=
  ⟨rfl, rfl, rfl, rfl,
    claim_C10_stale_cache_path loaderRailway opsSaveRaise hashZero
      "https://example.com/ds" [] [] 0 42 none rfl rfl rfl rfl⟩

/-- Claim C1: with caching enabled and an empty cache directory, when the
first call's fetch and cache-save both succeed and the second call happens
within `cache_ttl_hours` of the first, the first `load_data` returns
`cached=False`, the cache then holds exactly the fetched payload, the
second call returns `cached=True` with that same payload, and
`_load_data_from_source` runs exactly once across the two calls. -/
theorem claim_C1_cache_roundtrip {α : Type} (L : BaseDataLoader) (ops : LoaderOps α)
    (hashHex : String → List Char) (source : String)
    (kwargs : List (String × String)) (a : α) (now₁ now₂ : ℚ)
    (hce : L.cache_enabled = true)
    (hfetch : ops.fetch source kwargs = .ok a)
    (hsave : ops.save a = .ok)
    (httl : (now₂ - now₁) / 3600 ≤ (L.cache_ttl_hours : ℚ)) :
    ∃ r₁ r₂,
      (L.load_data ops hashHex source kwargs [] now₁).result = .ok r₁ ∧
      r₁.cached = false ∧ r₁.data = a ∧
      lookupFile (L.load_data ops hashHex source kwargs [] now₁).dir
        (cacheFileName hashHex L source kwargs) = some (.good a, now₁) ∧
      (L.load_data ops hashHex source kwargs
        (L.load_data ops hashHex source kwargs [] now₁).dir now₂).result = .ok r₂ ∧
      r₂.cached = true ∧ r₂.data = a ∧
      (L.load_data ops hashHex source kwargs [] now₁).fetchCalls +
        (L.load_data ops hashHex source kwargs
          (L.load_data ops hashHex source kwargs [] now₁).dir now₂).fetchCalls = 1 := by
  have h1 := load_data_of_fresh_saved L ops hashHex source kwargs [] [] now₁ a
    (cacheLookupPhase_of_lookup_none L [] now₁ _ rfl) hce hfetch hsave
  have hlook : lookupFile (L.load_data ops hashHex source kwargs [] now₁).dir
      (cacheFileName hashHex L source kwargs) = some (.good a, now₁) := by
    have hdir : (L.load_data ops hashHex source kwargs [] now₁).dir
        = writeFile [] (cacheFileName hashHex L source kwargs) (.good a) now₁ := by rw [h1]
    rw [hdir]
    exact lookupFile_writeFile_self _ _ _ _
  have h2 := load_data_of_hit L ops hashHex source kwargs
    (L.load_data ops hashHex source kwargs [] now₁).dir now₂ a
    (cacheLookupPhase_hit L _ now₂ _ a now₁ hce hlook httl)
  refine ⟨_, _, by rw [h1], rfl, rfl, hlook, by rw [h2], rfl, rfl, by rw [h2, h1]; rfl⟩

/-- Witness for C1 at a concrete loader, source and pair of timestamps one
hour apart. -/
theorem claim_C1_witness :
    loaderRailway.cache_enabled = true ∧
    opsOk.fetch "https://example.com/ds" [] = .ok 42 ∧
    opsOk.save 42 = .ok ∧
    ((3600 : ℚ) - 0) / 3600 ≤ (loaderRailway.cache_ttl_hours : ℚ) ∧
    ∃ r₁ r₂,
      (loaderRailway.load_data opsOk hashZero "https://example.com/ds" [] [] 0).result
        = .ok r₁ ∧
      r₁.cached = false ∧ r₁.data = 42 ∧
      lookupFile (loaderRailway.load_data opsOk hashZero "https://example.com/ds" [] [] 0).dir
        (cacheFileName hashZero loaderRailway "https://example.com/ds" []) = some (.good 42, 0) ∧
      (loaderRailway.load_data opsOk hashZero "https://example.com/ds" []
        (loaderRailway.load_data opsOk hashZero "https://example.com/ds" [] [] 0).dir
        3600).result = .ok r₂ ∧
      r₂.cached = true ∧ r₂.data = 42 ∧
      (loaderRailway.load_data opsOk hashZero "https://example.com/ds" [] [] 0).fetchCalls +
        (loaderRailway.load_data opsOk hashZero "https://example.com/ds" []
          (loaderRailway.load_data opsOk hashZero "https://example.com/ds" [] [] 0).dir
          3600).fetchCalls = 1 := by
  have httl : ((3600 : ℚ) - 0) / 3600 ≤ (loaderRailway.cache_ttl_hours : ℚ) := by
    have h24 : loaderRailway.cache_ttl_hours = 24 := rfl
    rw [h24]
    norm_num
  exact ⟨rfl, rfl, rfl, httl,
    claim_C1_cache_roundtrip loaderRailway opsOk hashZero "https://example.com/ds"
      [] 42 0 3600 rfl rfl rfl httl⟩

/-- Claim C3: if the derived cache entry exists and is within TTL but
`_load_from_cache` raises on it, `load_data` swallows the cache error,
deletes the offending file, falls through to a fresh fetch and — the fetch
succeeding — returns `cached=False`, with no corrupt content at the derived
path afterwards. -/
theorem claim_C3_corruption_recovery {α : Type} (L : BaseDataLoader)
    (ops : LoaderOps α) (hashHex : String → List Char) (source : String)
    (kwargs : List (String × String)) (d : CacheDir α) (now : ℚ) (a : α) (m : ℚ)
    (hce : L.cache_enabled = true)
    (hcorrupt : lookupFile d (cacheFileName hashHex L source kwargs) = some (.corrupt, m))
    (httl : (now - m) / 3600 ≤ (L.cache_ttl_hours : ℚ))
    (hfetch : ops.fetch source kwargs = .ok a) :
    ∃ r, (L.load_data ops hashHex source kwargs d now).result = .ok r ∧
      r.cached = false ∧ r.data = a ∧
      ∀ t, lookupFile (L.load_data ops hashHex source kwargs d now).dir
        (cacheFileName hashHex L source kwargs) ≠ some (.corrupt, t) := by
  have hphase := cacheLookupPhase_corrupt L d now _ m hce hcorrupt httl
  cases hsave : ops.save a with
  | ok =>
    have h1 := load_data_of_fresh_saved L ops hashHex source kwargs d
      (eraseFile d (cacheFileName hashHex L source kwargs)) now a hphase hce hfetch hsave
    refine ⟨_, by rw [h1], rfl, rfl, ?_⟩
    intro t
    have hdir : (L.load_data ops hashHex source kwargs d now).dir
        = writeFile (eraseFile d (cacheFileName hashHex L source kwargs))
            (cacheFileName hashHex L source kwargs) (.good a) now := by rw [h1]
    rw [hdir, lookupFile_writeFile_self]
    simp
  | raised leftover =>
    have h1 := load_data_of_fresh_save_raised L ops hashHex source kwargs d
      (eraseFile d (cacheFileName hashHex L source kwargs)) now a leftover
      hphase hce hfetch hsave
    refine ⟨_, by rw [h1], rfl, rfl, ?_⟩
    intro t
    have hdir : (L.load_data ops hashHex source kwargs d now).dir
        = eraseFile (leftoverWrite (eraseFile d (cacheFileName hashHex L source kwargs))
            (cacheFileName hashHex L source kwargs) leftover now)
            (cacheFileName hashHex L source kwargs) := by rw [h1]
    rw [hdir, lookupFile_eraseFile_self]
    simp

/-- Directory fixture: one corrupt file sitting at the path `load_data`
derives for the source used in the C3 witness. -/
def dirCorrupt : CacheDir Nat :=
  [⟨cacheFileName hashZero loaderRailway "https://example.com/ds" [], .corrupt, 0⟩]

/-- Witness for C3: a corrupt in-TTL entry, fetch succeeding. -/
theorem claim_C3_witness :
    loaderRailway.cache_enabled = true ∧
    lookupFile dirCorrupt (cacheFileName hashZero loaderRailway "https://example.com/ds" [])
      = some (.corrupt, 0) ∧
    ((3600 : ℚ) - 0) / 3600 ≤ (loaderRailway.cache_ttl_hours : ℚ) ∧
    opsOk.fetch "https://example.com/ds" [] = .ok 42 ∧
    ∃ r, (loaderRailway.load_data opsOk hashZero "https://example.com/ds" []
        dirCorrupt 3600).result = .ok r ∧
      r.cached = false ∧ r.data = 42 ∧
      ∀ t, lookupFile (loaderRailway.load_data opsOk hashZero "https://example.com/ds" []
          dirCorrupt 3600).dir
        (cacheFileName hashZero loaderRailway "https://example.com/ds" [])
          ≠ some (.corrupt, t) := by
  have httl : ((3600 : ℚ) - 0) / 3600 ≤ (loaderRailway.cache_ttl_hours : ℚ) := by
    have h24 : loaderRailway.cache_ttl_hours = 24 := rfl
    rw [h24]
    norm_num
  exact ⟨rfl, rfl, httl, rfl,
    claim_C3_corruption_recovery loaderRailway opsOk hashZero "https://example.com/ds"
      [] dirCorrupt 3600 42 0 rfl rfl httl rfl⟩

/-- Claim C8: `clear_cache` with no source deletes exactly the files whose
names match the loader's glob pattern, returning how many; with a source it
deletes only the derived entry (1 if it existed, else 0, the directory
untouched); and it is a no-op returning 0 when the cache directory is
absent or caching is disabled. -/
theorem claim_C8_clear_cache {α : Type} (L : BaseDataLoader)
    (hashHex : String → List Char) (kwargs : List (String × String))
    (fs : Option (CacheDir α)) (d : CacheDir α) (src : String) (srcO : Option String)
    (hce : L.cache_enabled = true) :
    ((L.clear_cache hashHex none kwargs (some d)).2 =
        (d.filter (fun f => globMatch (L.loader_name ++ "_") ".cache" f.name)).length ∧
      ∀ f ∈ d, (f ∈ ((L.clear_cache hashHex none kwargs (some d)).1.getD []) ↔
        globMatch (L.loader_name ++ "_") ".cache" f.name = false)) ∧
    ((lookupFile d (cacheFileName hashHex L src kwargs)).isSome →
        L.clear_cache hashHex (some src) kwargs (some d) =
          (some (eraseFile d (cacheFileName hashHex L src kwargs)), 1) ∧
        lookupFile (eraseFile d (cacheFileName hashHex L src kwargs))
          (cacheFileName hashHex L src kwargs) = none) ∧
    (lookupFile d (cacheFileName hashHex L src kwargs) = none →
        L.clear_cache hashHex (some src) kwargs (some d) = (some d, 0)) ∧
    L.clear_cache hashHex srcO kwargs (none : Option (CacheDir α)) = (none, 0) ∧
    (∀ L' : BaseDataLoader, L'.cache_enabled = false →
        L'.clear_cache hashHex srcO kwargs fs = (fs, 0)) := by
  refine ⟨⟨?_, ?_⟩, ?_, ?_, ?_, ?_⟩
  · simp [BaseDataLoader.clear_cache, hce]
  · intro f hf
    simp [BaseDataLoader.clear_cache, hce, List.mem_filter, hf]
  · intro h
    refine ⟨?_, lookupFile_eraseFile_self d _⟩
    simp [BaseDataLoader.clear_cache, hce, h]
  · intro h
    simp [BaseDataLoader.clear_cache, hce, h]
  · simp [BaseDataLoader.clear_cache, hce]
  · intro L' h
    simp [BaseDataLoader.clear_cache, h]

/-- Directory fixture for the C8 witness: one file of this loader type, one
of another loader type. -/
def dirMixed : CacheDir Nat :=
  [⟨"railway_a.cache", .good 1, 0⟩, ⟨"station_b.cache", .good 2, 0⟩]

/-- Witness for C8 on a two-file directory. -/
theorem claim_C8_witness :
    loaderRailway.cache_enabled = true ∧
    (((loaderRailway.clear_cache hashZero none [] (some dirMixed)).2 =
        (dirMixed.filter
          (fun f => globMatch (loaderRailway.loader_name ++ "_") ".cache" f.name)).length ∧
      ∀ f ∈ dirMixed,
        (f ∈ ((loaderRailway.clear_cache hashZero none [] (some dirMixed)).1.getD []) ↔
          globMatch (loaderRailway.loader_name ++ "_") ".cache" f.name = false)) ∧
    ((lookupFile dirMixed (cacheFileName hashZero loaderRailway "https://example.com/ds" [])).isSome →
        loaderRailway.clear_cache hashZero (some "https://example.com/ds") [] (some dirMixed) =
          (some (eraseFile dirMixed
            (cacheFileName hashZero loaderRailway "https://example.com/ds" [])), 1) ∧
        lookupFile
          (eraseFile dirMixed (cacheFileName hashZero loaderRailway "https://example.com/ds" []))
          (cacheFileName hashZero loaderRailway "https://example.com/ds" []) = none) ∧
    (lookupFile dirMixed (cacheFileName hashZero loaderRailway "https://example.com/ds" []) = none →
        loaderRailway.clear_cache hashZero (some "https://example.com/ds") [] (some dirMixed) =
          (some dirMixed, 0)) ∧
    loaderRailway.clear_cache hashZero none [] (none : Option (CacheDir Nat)) = (none, 0) ∧
    (∀ L' : BaseDataLoader, L'.cache_enabled = false →
        L'.clear_cache hashZero none [] (some dirMixed) = (some dirMixed, 0))) :=
  ⟨rfl, claim_C8_clear_cache loaderRailway hashZero [] (some dirMixed) dirMixed
    "https://example.com/ds" none rfl⟩

/-- Claim C9: `get_cache_info` does not mutate the cache directory — the
state after the call equals the state before — and each listed file's
`valid` flag is the value of `_is_cache_valid`, the same freshness test
`load_data` uses during lookup, on that file. -/
theorem claim_C9_cache_info_frame {α : Type} (L : BaseDataLoader)
    (sizeFn : CacheFile α → Nat) (fs : Option (CacheDir α)) (now : ℚ) :
    (L.get_cache_info sizeFn fs now).2 = fs ∧
    ∀ d, fs = some d →
      ∀ i ∈ (L.get_cache_info sizeFn fs now).1.files.getD [],
        ∃ f, f ∈ d ∧ i.path = L.cache_dir ++ "/" ++ f.name ∧
          i.valid = L.is_cache_valid d now f.name := by
  constructor
  · unfold BaseDataLoader.get_cache_info
    cases hce : L.cache_enabled <;> cases fs <;> simp
  · intro d hfs i hi
    subst hfs
    unfold BaseDataLoader.get_cache_info at hi
    cases hce : L.cache_enabled
    · rw [hce] at hi
      simp at hi
    · rw [hce] at hi
      simp only [if_true, Option.getD_some, List.mem_map, List.mem_filter] at hi
      obtain ⟨f, ⟨hfd, _⟩, rfl⟩ := hi
      exact ⟨f, hfd, rfl, rfl⟩

/-- Directory fixture for the C9 witness: a single file of this loader
type. -/
def dirC9 : CacheDir Nat := [⟨"railway_a.cache", .good 7, 0⟩]

/-- Model of `stat().st_size` for the C9 witness. -/
def sizeFix : CacheFile Nat → Nat := fun _ => 100

/-- The file-info record `get_cache_info` reports for the single file of
`dirC9`. -/
def infoC9 : CacheFileInfo :=
  { path := loaderRailway.cache_dir ++ "/" ++ "railway_a.cache"
    size_bytes := 100
    modified_time := 0
    age_hours := ((0 : ℚ) - 0) / 3600
    valid := loaderRailway.is_cache_valid dirC9 0 "railway_a.cache" }

/-- Witness for C9 on a one-file directory. -/
theorem claim_C9_witness :
    (loaderRailway.get_cache_info sizeFix (some dirC9) 0).2 = some dirC9 ∧
    infoC9 ∈ (loaderRailway.get_cache_info sizeFix (some dirC9) 0).1.files.getD [] ∧
    ∃ f, f ∈ dirC9 ∧ infoC9.path = loaderRailway.cache_dir ++ "/" ++ f.name ∧
      infoC9.valid = loaderRailway.is_cache_valid dirC9 0 f.name := by
  have hmem : infoC9 ∈ (loaderRailway.get_cache_info sizeFix (some dirC9) 0).1.files.getD [] := by
    exact List.mem_singleton_self _
  have h := claim_C9_cache_info_frame loaderRailway sizeFix (some dirC9) 0
  exact ⟨h.1, hmem, h.2 dirC9 rfl infoC9 hmem⟩

/-- A 64-character lowercase hex digest value for the C2 witness. -/
def hexChars64 : List Char :=
  "0123456789abcdef0123456789abcdef0123456789abcdef0123456789abcdef".data

/-- Digest model returning a fixed 64-character hex digest. -/
def hashHexFix : String → List Char := fun _ => hexChars64

theorem hashHexFix_hex :
    ∀ s, (hashHexFix s).length = 64 ∧ ∀ c ∈ hashHexFix s, isHexChar c = true := by
  intro s
  unfold hashHexFix
  exact ⟨by decide, by decide⟩

/-- Witness for C2 on two orderings of a two-key parameter mapping. -/
theorem claim_C2_witness :
    ([("a", "1"), ("b", "2")] : List (String × String)).Perm [("b", "2"), ("a", "1")] ∧
    (∀ s, (hashHexFix s).length = 64 ∧ ∀ c ∈ hashHexFix s, isHexChar c = true) ∧
    (getCachePath hashHexFix loaderRailway "https://example.com/ds" [("a", "1"), ("b", "2")] =
        getCachePath hashHexFix loaderRailway "https://example.com/ds" [("a", "1"), ("b", "2")] ∧
      getCachePath hashHexFix loaderRailway "https://example.com/ds" [("a", "1"), ("b", "2")] =
        getCachePath hashHexFix loaderRailway "https://example.com/ds" [("b", "2"), ("a", "1")] ∧
      ∃ digest rest,
        getCachePath hashHexFix loaderRailway "https://example.com/ds" [("a", "1"), ("b", "2")] =
          loaderRailway.cache_dir ++ "/" ++
            (loaderRailway.loader_name ++ "_" ++ String.mk digest ++ ".cache") ∧
        digest.length = 16 ∧
        (∀ c ∈ digest, isHexChar c = true) ∧
        hashHexFix (cache_key "https://example.com/ds" [("a", "1"), ("b", "2")])
          = digest ++ rest) :=
  ⟨List.Perm.swap ("b", "2") ("a", "1") [],
    hashHexFix_hex,
    claim_C2_get_cache_path hashHexFix loaderRailway "https://example.com/ds"
      [("a", "1"), ("b", "2")] [("b", "2"), ("a", "1")]
      (List.Perm.swap ("b", "2") ("a", "1") [])
      hashHexFix_hex⟩
